import Mathlib

/-!
Verification development for the `runner_automation` package of the
`embeddenator` repository.  Each Python function relevant to the claims is
shallowly embedded as an executable Lean definition: Python ints become
`Nat`/`Int`, Python floats become `ℚ` (exact arithmetic), fallible calls
become `Except`, and the environment a function touches (filesystem,
subprocesses, network) is passed in explicitly as a record of oracles.
-/

namespace Embeddenator

/-- Python exception kinds relevant to the embedded code paths. -/
inductive PyErr where
  | typeError
  | attributeError
deriving DecidableEq, Repr

/-- `pat.isPrefixOf` scanned along the list: Boolean substring test on
character lists (the semantics of Python's `pat in s`). -/
def listContainsSeq (pat : List Char) : List Char → Bool
  | [] => pat.isEmpty
  | c :: rest => pat.isPrefixOf (c :: rest) || listContainsSeq pat rest

/-- Python's `pat in s` on strings. -/
def strContains (s pat : String) : Bool :=
  listContainsSeq pat.data s.data

/-- Python's `s.lower()` (ASCII case mapping, which is all the embedded
model strings use). -/
def pyLower (s : String) : String :=
  String.mk (s.data.map Char.toLower)

/-- Python's `s.upper()` (ASCII case mapping). -/
def pyUpper (s : String) : String :=
  String.mk (s.data.map Char.toUpper)

/-- Python's `range(a, b)` as a list of naturals (empty when `b ≤ a`). -/
def pyRange (a b : Nat) : List Nat :=
  (List.range (b - a)).map (fun i => a + i)

namespace DynamicManager

/-!
Embedding of `DynamicRunnerManager._check_and_scale`
(src/runner_automation/dynamic_manager.py, lines 184-226).

The method reads `queue_length` from the platform, the pool counts under the
lock, and then decides.  We model one tick as a pure function of those counts,
the auto-scaling configuration, and the elapsed seconds since
`last_scale_time`; the result is the requested action together with a flag
telling whether `last_scale_time` was reset to `now`.
-/

/-- The auto-scaling tunables read from the config in
`DynamicRunnerManager.__init__` (dynamic_manager.py, lines 109-113).
Counts are Python ints; the cooldown is compared against
`total_seconds()`, a float, hence `ℚ`. -/
structure ScaleConfig where
  min_runners : Int
  max_runners : Int
  scale_up_threshold : Int
  scale_down_threshold : Int
  scale_cooldown : ℚ
deriving DecidableEq, Repr

/-- The observation a tick makes: queue length from the platform and the
pool counts (dynamic_manager.py, lines 188-194). -/
structure PoolCounts where
  queue_length : Int
  current_count : Int
  idle_count : Int
deriving DecidableEq, Repr

/-- The scaling decision a tick emits: `_scale_up n`, `_scale_down n`, or
nothing. -/
inductive ScaleAction where
  | scaleUp : Int → ScaleAction
  | scaleDown : Int → ScaleAction
  | noChange : ScaleAction
deriving DecidableEq, Repr

/-- One tick of `_check_and_scale` (dynamic_manager.py, lines 199-223):
first the cooldown gate, then the scale-up branch, then (elif) the
scale-down branch.  Returns the action and whether `last_scale_time`
was updated. `elapsed` is `(datetime.now() - last_scale_time).total_seconds()`. -/
def check_and_scale (cfg : ScaleConfig) (st : PoolCounts) (elapsed : ℚ) :
    ScaleAction × Bool :=
  if elapsed < cfg.scale_cooldown then
    (.noChange, false)
  else if cfg.scale_up_threshold < st.queue_length ∧ st.current_count < cfg.max_runners then
    let needed := min (st.queue_length - st.idle_count) (cfg.max_runners - st.current_count)
    if 0 < needed then (.scaleUp needed, true) else (.noChange, false)
  else if st.queue_length ≤ cfg.scale_down_threshold ∧ 1 < st.idle_count ∧
      cfg.min_runners < st.current_count then
    let to_remove := max 0 (min (st.idle_count - 1) (st.current_count - cfg.min_runners))
    if 0 < to_remove then (.scaleDown to_remove, true) else (.noChange, false)
  else
    (.noChange, false)

end DynamicManager

namespace RunnerCall

/-!
Embedding of the keyword-argument contract of `Runner.__init__`
(src/runner_automation/runner.py, line 20) and of the two call sites that
construct a `Runner` with extra keyword arguments:
`DynamicRunnerManager._add_runner` (dynamic_manager.py, lines 280-289) and
`RunnerManager.register_runners` (manager.py, lines 189-198).

Python raises `TypeError` at a call when a keyword argument does not match
any declared parameter (and the callee has no `**kwargs`).  We model a call
by the list of keyword names it passes.
-/

/-- The parameters declared by `Runner.__init__` (runner.py, line 20):
`config`, `github_api`, `logger`, `runner_id`, `target_arch` (besides
`self`).  There is no `**kwargs`. -/
def runner_init_params : List String :=
  ["config", "github_api", "logger", "runner_id", "target_arch"]

/-- Whether every keyword of a call matches some declared parameter. -/
def kwargs_accepted (params kwargs : List String) : Bool :=
  kwargs.all (fun k => params.contains k)

/-- Keywords passed by `DynamicRunnerManager._add_runner`
(dynamic_manager.py, lines 284-288); `config` and `git_platform` are
positional. -/
def add_runner_kwargs : List String :=
  ["runner_id", "target_arch", "gpu_info", "resource_limits", "custom_labels"]

/-- Keywords passed by `RunnerManager.register_runners`
(manager.py, lines 193-197). -/
def register_runners_kwargs : List String :=
  ["runner_id", "target_arch", "gpu_info", "resource_limits", "custom_labels"]

/-- Constructing a `Runner`: Python checks the keywords against the
declared parameters and raises `TypeError` on a mismatch. -/
def construct_runner (kwargs : List String) : Except PyErr Unit :=
  if kwargs_accepted runner_init_params kwargs then .ok () else .error .typeError

/-- `DynamicRunnerManager._add_runner` outcome (dynamic_manager.py,
lines 241-303): after the id/arch/GPU/resource bookkeeping it constructs a
`Runner` (the step that can raise), then registers and starts it.  The
result is `some` exactly when a runner was added to the pool.  `register_ok`
and `start_ok` are oracles for `runner.register()` / `runner.start()`. -/
def add_runner (register_ok start_ok : Bool) : Except PyErr (Option Unit) :=
  match construct_runner add_runner_kwargs with
  | .error e => .error e
  | .ok _ =>
    if register_ok then
      if start_ok then .ok (some ()) else .ok none
    else .ok none

/-- The runner-deployment loop of `RunnerManager.register_runners`
(manager.py, lines 158-213), folded over the total number of runners the
architecture loop deploys.  Each iteration constructs a `Runner` (which can
raise) and then calls `register()`; a `False` from `register()` aborts with
`.ok false`, and a full pass returns `.ok true`. -/
def register_runners_loop (register_ok : Bool) : Nat → Except PyErr Bool
  | 0 => .ok true
  | n + 1 =>
    match construct_runner register_runners_kwargs with
    | .error e => .error e
    | .ok _ =>
      if register_ok then register_runners_loop register_ok n else .ok false

/-- `RunnerManager.register_runners` restricted to its deployment part:
`deploy_count` is the total count of runners the nested loops create
(`runner_count` distributed over the architectures). -/
def register_runners (deploy_count : Nat) (register_ok : Bool) : Except PyErr Bool :=
  register_runners_loop register_ok deploy_count

end RunnerCall

namespace Installer

/-!
Embedding of `RunnerInstaller.install`
(src/runner_automation/installer.py, lines 53-98).
-/

/-- `RunnerInstaller.RUNNER_DOWNLOAD_URLS` (installer.py, lines 18-23). -/
def RUNNER_DOWNLOAD_URLS : List (String × String) :=
  [("x64",
    "https://github.com/actions/runner/releases/download/v{version}/actions-runner-linux-x64-{version}.tar.gz"),
   ("arm64",
    "https://github.com/actions/runner/releases/download/v{version}/actions-runner-linux-arm64-{version}.tar.gz"),
   ("riscv64",
    "https://github.com/actions/runner/releases/download/v{version}/actions-runner-linux-x64-{version}.tar.gz")]

/-- The environment one `install` call sees: whether `install_dir` exists on
entry, the configured architecture, and oracles for the two steps inside the
`try` block (`urlretrieve` and `tar`).  Version resolution never raises:
`get_latest_version` catches its own failures and falls back. -/
structure InstallEnv where
  dir_exists : Bool
  arch : String
  download_ok : Bool
  extract_ok : Bool
deriving DecidableEq, Repr

/-- `RunnerInstaller.install` as (return value, does `install_dir` exist when
the call returns).  Mirrors installer.py lines 63-98: early success if the
directory exists; `mkdir`; unsupported-architecture early `return False`
(the freshly created directory is not removed on this path); then the
`try` block whose handler does `shutil.rmtree(install_dir)`. -/
def install (env : InstallEnv) : Bool × Bool :=
  if env.dir_exists then (true, true)
  else
    match RUNNER_DOWNLOAD_URLS.lookup env.arch with
    | none => (false, true)
    | some _ =>
      if env.download_ok && env.extract_ok then (true, true)
      else (false, false)

end Installer

namespace ResourceOptimizer

/-!
Embedding of `ResourceOptimizer`
(src/runner_automation/resource_optimizer.py): the class constants, the
`CPUInfo` fields the claims touch, `calculate_optimal_resources`,
`get_cpu_affinity` and `validate_allocation`.  Core counts are Python ints
(`Nat`; `int(x)` on a non-negative float and `//` both floor), memory
amounts are floats (`ℚ`).
-/

/-- The fields of `resource_optimizer.CPUInfo` (resource_optimizer.py,
lines 66-79) that the embedded methods read. -/
structure CPUInfo where
  model : String
  cores_physical : Nat
  cores_logical : Nat
  threads_per_core : Nat
  is_apple_silicon : Bool
deriving DecidableEq, Repr

def MIN_HOST_CPU_CORES : Nat := 2
def MIN_HOST_MEMORY_GB : ℚ := 2
def RECOMMENDED_HOST_CPU_PERCENT : Nat := 20
def RECOMMENDED_HOST_MEMORY_PERCENT : ℚ := 15

/-- `ResourceOptimizer.is_xeon_e5_2660` (resource_optimizer.py,
lines 169-172). -/
def is_xeon_e5_2660 (cpu : CPUInfo) : Bool :=
  let m := pyLower cpu.model
  strContains m "e5-2660" && (strContains m "v3" || strContains m "v4")

/-- Python's `round(x, 1)`: round `10 * x` to the nearest integer, ties to
even, and divide by ten.  (We ignore binary-float representation error;
the round-half-even rule is CPython's documented behavior.) -/
def py_round1 (x : ℚ) : ℚ :=
  let y := 10 * x
  let f := ⌊y⌋
  let r := y - f
  let n := if r < 1 / 2 then f else if 1 / 2 < r then f + 1
           else if f % 2 = 0 then f else f + 1
  (n : ℚ) / 10

/-- The allocation dictionary built by `calculate_optimal_resources`
(resource_optimizer.py, lines 243-257).  The `enable_optimization=False`
dictionary carries only the first five keys; the remaining fields are
defaulted there. -/
structure Allocation where
  cpu_cores_per_runner : Nat
  memory_gb_per_runner : ℚ
  host_cpu_cores : Nat
  host_memory_gb : ℚ
  total_cpu_cores : Nat := 0
  total_memory_gb : ℚ := 0
  available_cpu_cores : Nat := 0
  available_memory_gb : ℚ := 0
  gpu_per_runner : ℚ := 0
  optimization_enabled : Bool
  cpu_model : String := ""
  xeon_e5_2660 : Bool := false
  apple_silicon : Bool := false
deriving DecidableEq, Repr

/-- `ResourceOptimizer.calculate_optimal_resources` (resource_optimizer.py,
lines 174-266).  `total_memory_gb` is the detected host memory in GB.
Python's `cores_physical - host_cpu` can be negative before the `max(1, ·)`
clamp; truncated `Nat` subtraction followed by the same clamp yields the
same value. -/
def calculate_optimal_resources (cpu : CPUInfo) (total_memory_gb : ℚ)
    (runner_count : Nat) (enable_optimization : Bool) (gpu_count : Nat) :
    Allocation :=
  if enable_optimization = false then
    { cpu_cores_per_runner := 0
      memory_gb_per_runner := 0
      host_cpu_cores := 0
      host_memory_gb := 0
      optimization_enabled := false }
  else
    let host_cpu := max MIN_HOST_CPU_CORES
      (cpu.cores_physical * RECOMMENDED_HOST_CPU_PERCENT / 100)
    let host_memory := max MIN_HOST_MEMORY_GB
      (total_memory_gb * RECOMMENDED_HOST_MEMORY_PERCENT / 100)
    let available_cpu := cpu.cores_physical - host_cpu
    let available_memory := total_memory_gb - host_memory
    let available_cpu := max 1 available_cpu
    let available_memory := max 1 available_memory
    let cpu_per_runner := max 1 (available_cpu / runner_count)
    let memory_per_runner := max 1 (available_memory / (runner_count : ℚ))
    let cpu_per_runner :=
      if is_xeon_e5_2660 cpu then min cpu_per_runner 4 else cpu_per_runner
    let cpu_per_runner :=
      if cpu.is_apple_silicon then
        let performance_cores := cpu.cores_physical / 2
        max 2 (performance_cores / runner_count)
      else cpu_per_runner
    let gpu_per_runner : ℚ :=
      if 0 < gpu_count then (gpu_count : ℚ) / (runner_count : ℚ) else 0
    { cpu_cores_per_runner := cpu_per_runner
      memory_gb_per_runner := py_round1 memory_per_runner
      host_cpu_cores := host_cpu
      host_memory_gb := py_round1 host_memory
      total_cpu_cores := cpu.cores_physical
      total_memory_gb := py_round1 total_memory_gb
      available_cpu_cores := available_cpu
      available_memory_gb := py_round1 available_memory
      gpu_per_runner := gpu_per_runner
      optimization_enabled := true
      cpu_model := cpu.model
      xeon_e5_2660 := is_xeon_e5_2660 cpu
      apple_silicon := cpu.is_apple_silicon }

/-- `ResourceOptimizer.get_cpu_affinity` (resource_optimizer.py,
lines 268-300): host-reserved cores first, then the runner's slice
`[start_core, end_core)` clamped at `cores_physical`, and for
`threads_per_core = 2` the sibling hyperthread IDs offset by
`cores_physical`. -/
def get_cpu_affinity (cpu : CPUInfo) (runner_id cores_per_runner : Nat) :
    List Nat :=
  let host_cores := max MIN_HOST_CPU_CORES
    (cpu.cores_physical * RECOMMENDED_HOST_CPU_PERCENT / 100)
  let start_core := host_cores + (runner_id - 1) * cores_per_runner
  let end_core := start_core + cores_per_runner
  let end_core := min end_core cpu.cores_physical
  let cpu_list := pyRange start_core end_core
  if cpu.threads_per_core = 2 then
    cpu_list ++ cpu_list.map (fun c => c + cpu.cores_physical)
  else
    cpu_list

/-- The four warnings `validate_allocation` can append, in source order
(resource_optimizer.py, lines 398-426); we record which warning was
appended rather than its formatted message text. -/
inductive WarningTag where
  | cpuOverAllocation
  | memoryOverAllocation
  | hostCpuBelowMin
  | hostMemoryBelowMin
deriving DecidableEq, Repr

/-- The host inventory `validate_allocation` compares against:
`self.cpu_info` and `self.total_memory_gb`. -/
structure HostInventory where
  cpu_info : CPUInfo
  total_memory_gb : ℚ
deriving DecidableEq, Repr

/-- `ResourceOptimizer.validate_allocation` (resource_optimizer.py,
lines 387-429): appends a warning per violated check and returns
`(len(warnings) == 0, warnings)`. -/
def validate_allocation (host : HostInventory) (a : Allocation)
    (runner_count : Nat) : Bool × List WarningTag :=
  let w1 : List WarningTag :=
    if host.cpu_info.cores_physical <
        a.cpu_cores_per_runner * runner_count + a.host_cpu_cores then
      [.cpuOverAllocation]
    else []
  let w2 : List WarningTag :=
    if host.total_memory_gb <
        a.memory_gb_per_runner * (runner_count : ℚ) + a.host_memory_gb then
      [.memoryOverAllocation]
    else []
  let w3 : List WarningTag :=
    if a.host_cpu_cores < MIN_HOST_CPU_CORES then [.hostCpuBelowMin] else []
  let w4 : List WarningTag :=
    if a.host_memory_gb < MIN_HOST_MEMORY_GB then [.hostMemoryBelowMin] else []
  let warnings := w1 ++ w2 ++ w3 ++ w4
  (warnings.isEmpty, warnings)

end ResourceOptimizer

namespace GPUDetection

/-!
Embedding of `GPUDetector._classify_gpu_capabilities`
(src/runner_automation/gpu_detection.py, lines 396-481) together with the
class constants it consults.  `compute_capability` is stored as a string in
Python and parsed with `float(...)` inside a `try/except ValueError`; we
embed the parse result directly: `some q` for a successful parse, `none`
for the `ValueError` path.
-/

/-- `gpu_detection.GPUInfo` (gpu_detection.py, lines 14-26); capability
flags default to `False`. -/
structure GPUInfo where
  vendor : String
  name : String
  index : Nat
  memory_mb : Nat
  compute_capability : Option ℚ
  pci_id : String
  is_inference_capable : Bool := false
  is_training_capable : Bool := false
deriving DecidableEq, Repr

def NVIDIA_MIN_COMPUTE : ℚ := 7

def INFERENCE_GPUS_nvidia : List String := ["T4", "A10", "A16", "A2", "L4", "L40"]

def INFERENCE_GPUS_intel : List String := ["Flex", "Max", "Arc A"]

def INFERENCE_GPUS_amd : List String :=
  ["MI210", "MI250", "MI300", "MI100", "MI60", "MI50",
   "Instinct",
   "RX 6900", "RX 6800", "RX 6700",
   "RX 7900", "RX 7800", "RX 7700", "RX 7600",
   "Radeon Pro W6800", "Radeon Pro W6900", "Radeon Pro W7900",
   "Radeon Pro V620", "Radeon Pro V520",
   "RX 7950", "RX 7800 XT", "RX 7700 XT"]

def AMD_ROCM_CAPABLE : List String :=
  ["RX 6950", "RX 6900", "RX 6800", "RX 6750", "RX 6700", "RX 6650", "RX 6600",
   "RX 7900", "RX 7800", "RX 7700", "RX 7600",
   "Vega 64", "Vega 56", "Vega VII",
   "Radeon VII"]

/-- The NVIDIA branch (gpu_detection.py, lines 404-421): the compute
capability thresholds, then the inference-model list with `break`. -/
def classify_nvidia (g : GPUInfo) : GPUInfo :=
  let g1 :=
    match g.compute_capability with
    | some cc =>
      if NVIDIA_MIN_COMPUTE ≤ cc then
        { g with is_training_capable := true, is_inference_capable := true }
      else
        { g with is_inference_capable := decide ((6 : ℚ) ≤ cc) }
    | none => g
  if INFERENCE_GPUS_nvidia.any (fun m => strContains g1.name m) then
    { g1 with is_inference_capable := true }
  else g1

/-- The AMD branch's two model-list scans (gpu_detection.py, lines 427-448):
first the inference-optimized list (with the MI/Pro/Instinct training
upgrade), and only if no match, the ROCm-capable list (with the
RX 6/RX 7/Vega/VII training upgrade). -/
def classify_amd_names (g : GPUInfo) : GPUInfo :=
  match INFERENCE_GPUS_amd.find? (fun m => strContains g.name m) with
  | some _ =>
    let g1 := { g with is_inference_capable := true }
    if strContains g.name "MI" || strContains g.name "Pro" ||
        strContains g.name "Instinct" then
      { g1 with is_training_capable := true }
    else g1
  | none =>
    match AMD_ROCM_CAPABLE.find? (fun m => strContains g.name m) with
    | some _ =>
      let g1 := { g with is_inference_capable := true }
      if ["RX 6", "RX 7", "Vega", "VII"].any (fun x => strContains g.name x) then
        { g1 with is_training_capable := true }
      else g1
    | none => g

/-- The AMD branch's RDNA series check (gpu_detection.py, lines 450-453):
RDNA / RDNA2 / RDNA3 in the upper-cased name. -/
def classify_amd_rdna (g : GPUInfo) : GPUInfo :=
  if strContains (pyUpper g.name) "RDNA" || strContains (pyUpper g.name) "RDNA2" ||
      strContains (pyUpper g.name) "RDNA3" then
    { g with is_inference_capable := true, is_training_capable := true }
  else g

/-- The AMD branch's Vega / VII check (gpu_detection.py, lines 455-458). -/
def classify_amd_vega (g : GPUInfo) : GPUInfo :=
  if strContains g.name "Vega" || strContains g.name "VII" then
    { g with is_inference_capable := true, is_training_capable := true }
  else g

/-- The AMD branch's series checks (gpu_detection.py, lines 450-458). -/
def classify_amd_series (g : GPUInfo) : GPUInfo :=
  classify_amd_vega (classify_amd_rdna g)

/-- The AMD branch's minimum-memory gate (gpu_detection.py, lines 460-466):
applied only when `memory_mb > 0`. -/
def amd_memory_gate (g : GPUInfo) : GPUInfo :=
  if 0 < g.memory_mb then
    if g.memory_mb < 4096 then
      { g with is_inference_capable := false, is_training_capable := false }
    else if g.memory_mb < 8192 then
      { g with is_training_capable := false }
    else g
  else g

/-- The full AMD branch (gpu_detection.py, lines 424-466). -/
def classify_amd (g : GPUInfo) : GPUInfo :=
  amd_memory_gate (classify_amd_series (classify_amd_names g))

/-- The Intel branch (gpu_detection.py, lines 469-475). -/
def classify_intel (g : GPUInfo) : GPUInfo :=
  if INFERENCE_GPUS_intel.any (fun m => strContains g.name m) then
    { g with is_inference_capable := true, is_training_capable := true }
  else g

/-- The Apple branch (gpu_detection.py, lines 478-481). -/
def classify_apple (g : GPUInfo) : GPUInfo :=
  { g with is_inference_capable := true, is_training_capable := true }

/-- `GPUDetector._classify_gpu_capabilities` (gpu_detection.py,
lines 396-481): dispatch on the vendor string. -/
def classify_gpu_capabilities (g : GPUInfo) : GPUInfo :=
  if g.vendor = "nvidia" then classify_nvidia g
  else if g.vendor = "amd" then classify_amd g
  else if g.vendor = "intel" then classify_intel g
  else if g.vendor = "apple" then classify_apple g
  else g

end GPUDetection

namespace Emulation

/-!
Embedding of `EmulationManager`
(src/runner_automation/emulation.py): `is_emulation_needed`,
`setup_emulation`, the `SUPPORTED_ARCHITECTURES` table, and the set of
method names the class actually defines.  In the source, the intended body
of `check_qemu_installed` sits inside `_determine_emulation_method` after
that method's `return` statement (emulation.py, lines 153-169), so the
class has no `check_qemu_installed` attribute and the call at line 351
raises `AttributeError`.
-/

/-- One entry of `EmulationManager.SUPPORTED_ARCHITECTURES`
(emulation.py, lines 84-102). -/
structure ArchInfo where
  native : List String
  emulation_required : Bool
  qemu_arch : Option String
  qemu_package : Option String
deriving DecidableEq, Repr

def SUPPORTED_ARCHITECTURES : List (String × ArchInfo) :=
  [("x64", ⟨["x86_64", "amd64"], false, none, none⟩),
   ("arm64", ⟨["arm64", "aarch64"], true, some "aarch64", some "qemu-user-static"⟩),
   ("riscv64", ⟨["riscv64"], true, some "riscv64", some "qemu-user-static"⟩)]

/-- The method names defined by the (second) `class EmulationManager` body
(emulation.py, lines 80-492).  `check_qemu_installed` is absent: its
docstring and body are the unreachable tail of
`_determine_emulation_method`. -/
def emulation_manager_method_names : List String :=
  ["__init__", "_determine_emulation_method", "check_binfmt_support",
   "install_qemu", "enable_binfmt", "_enable_binfmt_container",
   "_enable_binfmt_native", "setup_emulation", "is_emulation_needed",
   "verify_emulation", "_is_runtime_available",
   "get_supported_architectures", "is_emulation_enabled"]

/-- `EmulationManager.is_emulation_needed` (emulation.py, lines 371-393). -/
def is_emulation_needed (target_arch host_arch : String) : Bool :=
  if target_arch = host_arch then false
  else if (target_arch = "x64" || target_arch = "amd64") &&
      (host_arch = "x64" || host_arch = "amd64") then false
  else if (target_arch = "arm64" || target_arch = "aarch64") &&
      (host_arch = "arm64" || host_arch = "aarch64") then false
  else true

/-- Python's `f"qemu-{arch}"` argument: `None` prints as the string
`"None"`. -/
def qemu_arch_str : Option String → String
  | some s => s
  | none => "None"

/-- The environment oracles `setup_emulation` consults: the binfmt registry
(`check_binfmt_support`, keyed by the QEMU arch name), whether QEMU is
installed, and the outcomes of `install_qemu`, `enable_binfmt` and
`verify_emulation`. -/
structure EmuEnv where
  binfmt_enabled : String → Bool
  qemu_installed : Bool
  install_qemu_ok : Bool
  enable_binfmt_ok : String → Bool
  verify_ok : String → Bool

/-- `EmulationManager.setup_emulation` (emulation.py, lines 320-369).
The attribute lookup `self.check_qemu_installed` at line 351 raises
`AttributeError` whenever that name is not among the class's methods; the
code after it is modelled for completeness but is unreachable. -/
def setup_emulation (env : EmuEnv) (target_arch host_arch : String) :
    Except PyErr Bool :=
  if is_emulation_needed target_arch host_arch = false then .ok true
  else
    match SUPPORTED_ARCHITECTURES.lookup target_arch with
    | none => .ok false
    | some info =>
      let qa := qemu_arch_str info.qemu_arch
      if env.binfmt_enabled qa then .ok true
      else if (emulation_manager_method_names.contains "check_qemu_installed") = false then
        .error .attributeError
      else if env.qemu_installed = false && env.install_qemu_ok = false then .ok false
      else if env.enable_binfmt_ok qa = false then .ok false
      else if env.verify_ok target_arch = false then .ok false
      else .ok true

end Emulation

namespace Examples

/-!
Concrete inputs used by the witness and counterexample theorems below.
-/

/-- An Apple Silicon CPU inventory: 8 physical cores, no hyperthreading. -/
def appleCpu : ResourceOptimizer.CPUInfo :=
  ⟨"Apple M2", 8, 8, 1, true⟩

/-- A dual-socket Xeon E5-2660 v4 inventory: 28 physical cores, HT. -/
def xeonCpu : ResourceOptimizer.CPUInfo :=
  ⟨"Intel(R) Xeon(R) CPU E5-2660 v4 @ 2.00GHz", 28, 56, 2, false⟩

/-- A plain 10-core CPU without hyperthreading. -/
def plainCpu : ResourceOptimizer.CPUInfo :=
  ⟨"TestCPU", 10, 10, 1, false⟩

/-- A 20-core CPU with two threads per core. -/
def htCpu : ResourceOptimizer.CPUInfo :=
  ⟨"TestCPU HT", 20, 40, 2, false⟩

/-- A host with 16 physical cores and 32 GB of memory. -/
def hostA : ResourceOptimizer.HostInventory := ⟨⟨"h", 16, 32, 2, false⟩, 32⟩

/-- A feasible allocation on `hostA` for four runners. -/
def allocA : ResourceOptimizer.Allocation :=
  { cpu_cores_per_runner := 2, memory_gb_per_runner := 2,
    host_cpu_cores := 2, host_memory_gb := 4, optimization_enabled := true }

/-- A host with 4 physical cores and 8 GB of memory. -/
def hostB : ResourceOptimizer.HostInventory := ⟨⟨"h", 4, 4, 1, false⟩, 8⟩

/-- An allocation that over-allocates CPU on `hostB` already for one
runner: 3 + 2 > 4. -/
def allocB : ResourceOptimizer.Allocation :=
  { cpu_cores_per_runner := 3, memory_gb_per_runner := 2,
    host_cpu_cores := 2, host_memory_gb := 2, optimization_enabled := true }

/-- A low-memory NVIDIA laptop GPU: 2 GiB of memory, compute capability
8.6. -/
def mx570 : GPUDetection.GPUInfo :=
  { vendor := "nvidia", name := "NVIDIA GeForce MX570", index := 0,
    memory_mb := 2048, compute_capability := some (86 / 10), pci_id := "" }

/-- A datacenter AMD GPU with 64 GiB of memory. -/
def mi250 : GPUDetection.GPUInfo :=
  { vendor := "amd", name := "AMD Instinct MI250", index := 0,
    memory_mb := 65536, compute_capability := none, pci_id := "" }

/-- An emulation environment in which nothing is installed or enabled. -/
def bareEmuEnv : Emulation.EmuEnv :=
  { binfmt_enabled := fun _ => false, qemu_installed := false,
    install_qemu_ok := false, enable_binfmt_ok := fun _ => false,
    verify_ok := fun _ => false }

end Examples

/-! ### Theorems -/

section Theorems

open DynamicManager ResourceOptimizer GPUDetection Emulation Installer RunnerCall

/-- Membership in the embedded Python `range(a, b)`. -/
theorem mem_pyRange {x a b : Nat} : x ∈ pyRange a b ↔ a ≤ x ∧ x < b := by
  simp only [pyRange, List.mem_map, List.mem_range]
  constructor
  · rintro ⟨i, hi, rfl⟩
    omega
  · intro h
    exact ⟨x - a, by omega, by omega⟩

/-- C1: on a scaling tick after the cooldown has elapsed, with queue length
`q`, pool size `n_total` and idle count `n_idle`: if `q > scale_up_threshold`
and `n_total < max_runners`, the controller requests exactly
`min(q - n_idle, max_runners - n_total)` additions when that quantity is
positive (and updates `last_scale_time`), and nothing otherwise; failing that
guard, if `q ≤ scale_down_threshold`, `n_idle > 1` and
`n_total > min_runners`, it requests exactly
`min(n_idle - 1, n_total - min_runners)` removals (a positive quantity under
the guard) and updates `last_scale_time`; in all other cases it requests no
change and leaves `last_scale_time` alone. -/
theorem check_and_scale_decision (cfg : ScaleConfig) (st : PoolCounts)
    (elapsed : ℚ) (hcool : cfg.scale_cooldown ≤ elapsed) :
    ((cfg.scale_up_threshold < st.queue_length ∧ st.current_count < cfg.max_runners) →
      (0 < min (st.queue_length - st.idle_count) (cfg.max_runners - st.current_count) →
        check_and_scale cfg st elapsed =
          (.scaleUp (min (st.queue_length - st.idle_count)
            (cfg.max_runners - st.current_count)), true)) ∧
      (min (st.queue_length - st.idle_count) (cfg.max_runners - st.current_count) ≤ 0 →
        check_and_scale cfg st elapsed = (.noChange, false))) ∧
    (¬(cfg.scale_up_threshold < st.queue_length ∧ st.current_count < cfg.max_runners) →
      (st.queue_length ≤ cfg.scale_down_threshold ∧ 1 < st.idle_count ∧
        cfg.min_runners < st.current_count) →
      check_and_scale cfg st elapsed =
        (.scaleDown (min (st.idle_count - 1) (st.current_count - cfg.min_runners)), true)) ∧
    (¬(cfg.scale_up_threshold < st.queue_length ∧ st.current_count < cfg.max_runners) →
      ¬(st.queue_length ≤ cfg.scale_down_threshold ∧ 1 < st.idle_count ∧
        cfg.min_runners < st.current_count) →
      check_and_scale cfg st elapsed = (.noChange, false)) := by
  have hc : ¬ (elapsed < cfg.scale_cooldown) := not_lt.mpr hcool
  refine ⟨fun hup => ⟨fun hpos => ?_, fun hnp => ?_⟩, fun hnup hdn => ?_,
    fun hnup hndn => ?_⟩ <;>
    simp only [check_and_scale, if_neg hc]
  · rw [if_pos hup, if_pos hpos]
  · rw [if_pos hup, if_neg (not_lt.mpr hnp)]
  · rw [if_neg hnup, if_pos hdn]
    have hpos : 0 < min (st.idle_count - 1) (st.current_count - cfg.min_runners) :=
      lt_min_iff.mpr ⟨by omega, by omega⟩
    rw [max_eq_right hpos.le, if_pos hpos]
  · rw [if_neg hnup, if_neg hndn]

/-- Witness for C1: with thresholds `(up, down) = (2, 0)`, bounds
`(min, max) = (1, 10)`, cooldown 60 s elapsed 120 s, queue 5, pool 3 with
1 idle, the controller adds `min(5 - 1, 10 - 3) = 4` runners and updates the
timestamp. -/
theorem check_and_scale_decision_witness :
    check_and_scale ⟨1, 10, 2, 0, 60⟩ ⟨5, 3, 1⟩ 120 = (.scaleUp 4, true) := by
  have h := ((check_and_scale_decision ⟨1, 10, 2, 0, 60⟩ ⟨5, 3, 1⟩ 120
    (by norm_num)).1 (by decide)).1 (by decide)
  simpa using h

/-- C3: on a tick strictly less than `scale_cooldown` seconds after the last
scaling action, the controller performs neither a scale-up nor a scale-down
and does not touch `last_scale_time`, whatever the queue length, pool size
and idle count. -/
theorem check_and_scale_cooldown (cfg : ScaleConfig) (st : PoolCounts)
    (elapsed : ℚ) (h : elapsed < cfg.scale_cooldown) :
    check_and_scale cfg st elapsed = (.noChange, false) := by
  simp [check_and_scale, h]

/-- Witness for C3: 10 s into a 60 s cooldown, nothing happens even though
the queue (50) is far above the scale-up threshold. -/
theorem check_and_scale_cooldown_witness :
    check_and_scale ⟨1, 10, 2, 0, 60⟩ ⟨50, 3, 1⟩ 10 = (.noChange, false) :=
  check_and_scale_cooldown ⟨1, 10, 2, 0, 60⟩ ⟨50, 3, 1⟩ 10 (by norm_num)

/-- C2: both runner-construction call sites pass the keyword arguments
`gpu_info`, `resource_limits` and `custom_labels`, which `Runner.__init__`
does not declare, so constructing the `Runner` raises `TypeError`:
`DynamicRunnerManager._add_runner` always propagates the `TypeError` (and so
never adds a runner), and `RunnerManager.register_runners` propagates it
whenever it deploys at least one runner. -/
theorem runner_construction_type_error :
    kwargs_accepted runner_init_params add_runner_kwargs = false ∧
    (∀ register_ok start_ok : Bool,
      add_runner register_ok start_ok = .error .typeError) ∧
    kwargs_accepted runner_init_params register_runners_kwargs = false ∧
    (∀ (deploy_count : Nat) (register_ok : Bool), 1 ≤ deploy_count →
      register_runners deploy_count register_ok = .error .typeError) := by
  refine ⟨by decide, fun r s => rfl, by decide, fun n r h => ?_⟩
  match n, h with
  | n + 1, _ => rfl

/-- Witness for C2: a single-runner deployment fails with `TypeError`, and
so does one `_add_runner` call. -/
theorem runner_construction_type_error_witness :
    register_runners 1 true = .error .typeError ∧
    add_runner true true = .error .typeError :=
  ⟨runner_construction_type_error.2.2.2 1 true (by decide),
   runner_construction_type_error.2.1 true true⟩

/-- C4 (amended): for every CPU inventory with `physical_cores ≥ 1` and
`runner_count ≥ 1` that is not detected as Apple Silicon,
`calculate_optimal_resources` with optimization enabled returns
`host_cpu_cores = max(2, ⌊physical_cores · 20%⌋)`,
`available = max(1, physical_cores - host_cpu_cores)` and
`cpu_cores_per_runner = max(1, ⌊available / runner_count⌋)`, the latter
additionally capped at 4 when the detected model is an Intel Xeon E5-2660
v3/v4.  (On Apple Silicon a later override replaces the per-runner count;
see the counterexample.) -/
theorem calculate_optimal_resources_cpu_formula (cpu : CPUInfo) (mem : ℚ)
    (count gpu_count : Nat) (_hphys : 1 ≤ cpu.cores_physical)
    (_hcount : 1 ≤ count) (happle : cpu.is_apple_silicon = false) :
    (calculate_optimal_resources cpu mem count true gpu_count).host_cpu_cores =
      max 2 (cpu.cores_physical * 20 / 100) ∧
    (calculate_optimal_resources cpu mem count true gpu_count).available_cpu_cores =
      max 1 (cpu.cores_physical - max 2 (cpu.cores_physical * 20 / 100)) ∧
    (calculate_optimal_resources cpu mem count true gpu_count).cpu_cores_per_runner =
      (if is_xeon_e5_2660 cpu then
        min (max 1 ((max 1 (cpu.cores_physical -
          max 2 (cpu.cores_physical * 20 / 100))) / count)) 4
      else
        max 1 ((max 1 (cpu.cores_physical -
          max 2 (cpu.cores_physical * 20 / 100))) / count)) := by
  simp [calculate_optimal_resources, MIN_HOST_CPU_CORES,
    RECOMMENDED_HOST_CPU_PERCENT, happle]

/-- Witness for C4: on the 28-core Xeon E5-2660 v4 inventory with four
runners, the host keeps `max(2, 5) = 5` cores, `23` are available, and the
per-runner count `max(1, ⌊23/4⌋) = 5` is capped to 4 by the Xeon rule. -/
theorem calculate_optimal_resources_cpu_formula_witness :
    (calculate_optimal_resources Examples.xeonCpu 128 4 true 0).host_cpu_cores = 5 ∧
    (calculate_optimal_resources Examples.xeonCpu 128 4 true 0).available_cpu_cores = 23 ∧
    (calculate_optimal_resources Examples.xeonCpu 128 4 true 0).cpu_cores_per_runner = 4 := by
  have h := calculate_optimal_resources_cpu_formula Examples.xeonCpu 128 4 0
    (by decide) (by decide) rfl
  refine ⟨?_, ?_, ?_⟩
  · rw [h.1]; decide
  · rw [h.2.1]; decide
  · rw [h.2.2]; decide

/-- Counterexample for C4 as stated: on an Apple Silicon inventory
(8 physical cores, one runner) the code returns `cpu_cores_per_runner = 4`
(the performance-core override `max(2, ⌊(8/2)/1⌋)`), not the claimed
`max(1, ⌊available/runner_count⌋) = 6`. -/
theorem calculate_optimal_resources_cpu_formula_counterexample :
    (calculate_optimal_resources Examples.appleCpu 16 1 true 0).cpu_cores_per_runner = 4 ∧
    (calculate_optimal_resources Examples.appleCpu 16 1 true 0).available_cpu_cores = 6 ∧
    (calculate_optimal_resources Examples.appleCpu 16 1 true 0).cpu_cores_per_runner ≠
      max 1 ((calculate_optimal_resources Examples.appleCpu 16 1 true 0).available_cpu_cores / 1) := by
  refine ⟨by decide, by decide, by decide⟩

/-- C5: if `validate_allocation` returns an empty warning list then
`cpu_cores_per_runner · runner_count + host_cpu_cores ≤ physical_cores` and
`memory_gb_per_runner · runner_count + host_memory_gb ≤ total memory`;
conversely, whenever either inequality is violated the warning list is
non-empty and `is_valid` is `false`. -/
theorem validate_allocation_feasibility (host : HostInventory) (a : Allocation)
    (n : Nat) :
    ((validate_allocation host a n).2 = [] →
      a.cpu_cores_per_runner * n + a.host_cpu_cores ≤ host.cpu_info.cores_physical ∧
      a.memory_gb_per_runner * (n : ℚ) + a.host_memory_gb ≤ host.total_memory_gb) ∧
    ((host.cpu_info.cores_physical < a.cpu_cores_per_runner * n + a.host_cpu_cores ∨
      host.total_memory_gb < a.memory_gb_per_runner * (n : ℚ) + a.host_memory_gb) →
      (validate_allocation host a n).2 ≠ [] ∧
      (validate_allocation host a n).1 = false) := by
  have hfst : (validate_allocation host a n).1 =
      (validate_allocation host a n).2.isEmpty := rfl
  constructor
  · intro hnil
    constructor
    · by_contra hlt
      rw [not_le] at hlt
      simp [validate_allocation, hlt] at hnil
    · by_contra hlt
      rw [not_le] at hlt
      simp [validate_allocation, hlt] at hnil
  · intro hviol
    have hne : (validate_allocation host a n).2 ≠ [] := by
      rcases hviol with h | h
      · simp [validate_allocation, h]
      · simp [validate_allocation, h]
    refine ⟨hne, ?_⟩
    rw [hfst]
    cases hl : (validate_allocation host a n).2 with
    | nil => exact absurd hl hne
    | cons x xs => rfl

/-- Witness for C5: a feasible plan (2 cores and 2 GB across 4 runners on a
16-core / 32 GB host) validates with no warnings, and an over-allocated plan
(3 cores per runner + 2 host cores on a 4-core host) yields a warning with
`is_valid = false`. -/
theorem validate_allocation_feasibility_witness :
    (Examples.allocA.cpu_cores_per_runner * 4 + Examples.allocA.host_cpu_cores ≤
      Examples.hostA.cpu_info.cores_physical ∧
     Examples.allocA.memory_gb_per_runner * (4 : ℚ) + Examples.allocA.host_memory_gb ≤
      Examples.hostA.total_memory_gb) ∧
    ((validate_allocation Examples.hostB Examples.allocB 1).2 ≠ [] ∧
     (validate_allocation Examples.hostB Examples.allocB 1).1 = false) :=
  ⟨(validate_allocation_feasibility Examples.hostA Examples.allocA 4).1 (by
      norm_num [validate_allocation, Examples.hostA, Examples.allocA,
        MIN_HOST_CPU_CORES, MIN_HOST_MEMORY_GB]),
   (validate_allocation_feasibility Examples.hostB Examples.allocB 1).2 (Or.inl (by
      norm_num [Examples.hostB, Examples.allocB]))⟩

/-- C6 (amended): for a 1-indexed `runner_id = k` and `cores_per_runner = c ≥ 1`,
`get_cpu_affinity` returns exactly the core IDs in the half-open interval
from `host_reserved_cores + (k-1)·c` up to `host_reserved_cores + k·c`
clamped at `physical_cores` (the code caps `end_core` at
`cores_physical`), plus, when `threads_per_core = 2`, each listed core's
sibling logical ID offset by `physical_cores`; no returned ID lies in the
host-reserved interval `[0, host_reserved_cores)`. -/
theorem get_cpu_affinity_slice (cpu : CPUInfo) (k c : Nat) (hk : 1 ≤ k)
    (_hc : 1 ≤ c) :
    (∀ x, x ∈ get_cpu_affinity cpu k c ↔
      ((max 2 (cpu.cores_physical * 20 / 100) + (k - 1) * c ≤ x ∧
        x < min (max 2 (cpu.cores_physical * 20 / 100) + k * c) cpu.cores_physical) ∨
       (cpu.threads_per_core = 2 ∧ ∃ y,
         max 2 (cpu.cores_physical * 20 / 100) + (k - 1) * c ≤ y ∧
         y < min (max 2 (cpu.cores_physical * 20 / 100) + k * c) cpu.cores_physical ∧
         x = y + cpu.cores_physical))) ∧
    (∀ x ∈ get_cpu_affinity cpu k c,
      ¬ x < max 2 (cpu.cores_physical * 20 / 100)) := by
  obtain ⟨m, rfl⟩ : ∃ m, k = m + 1 := ⟨k - 1, by omega⟩
  have hE : ∀ a : Nat, a + (m + 1 - 1) * c + c = a + (m + 1) * c := by
    intro a
    simp only [Nat.add_sub_cancel]
    ring
  have hmem : ∀ x, x ∈ get_cpu_affinity cpu (m + 1) c ↔
      ((max 2 (cpu.cores_physical * 20 / 100) + (m + 1 - 1) * c ≤ x ∧
        x < min (max 2 (cpu.cores_physical * 20 / 100) + (m + 1) * c) cpu.cores_physical) ∨
       (cpu.threads_per_core = 2 ∧ ∃ y,
         max 2 (cpu.cores_physical * 20 / 100) + (m + 1 - 1) * c ≤ y ∧
         y < min (max 2 (cpu.cores_physical * 20 / 100) + (m + 1) * c) cpu.cores_physical ∧
         x = y + cpu.cores_physical)) := by
    intro x
    simp only [get_cpu_affinity, MIN_HOST_CPU_CORES, RECOMMENDED_HOST_CPU_PERCENT]
    rw [hE]
    by_cases ht : cpu.threads_per_core = 2
    · rw [if_pos ht]
      constructor
      · intro hx
        rcases List.mem_append.mp hx with h | h
        · exact Or.inl (mem_pyRange.mp h)
        · obtain ⟨y, hy, rfl⟩ := List.mem_map.mp h
          exact Or.inr ⟨ht, y, (mem_pyRange.mp hy).1, (mem_pyRange.mp hy).2, rfl⟩
      · rintro (h | ⟨-, y, h1, h2, rfl⟩)
        · exact List.mem_append.mpr (Or.inl (mem_pyRange.mpr h))
        · exact List.mem_append.mpr
            (Or.inr (List.mem_map.mpr ⟨y, mem_pyRange.mpr ⟨h1, h2⟩, rfl⟩))
    · rw [if_neg ht]
      constructor
      · intro h
        exact Or.inl (mem_pyRange.mp h)
      · rintro (h | ⟨h2c, -⟩)
        · exact mem_pyRange.mpr h
        · exact absurd h2c ht
  refine ⟨hmem, fun x hx => ?_⟩
  rcases (hmem x).mp hx with ⟨h1, -⟩ | ⟨-, y, h1, -, rfl⟩
  · exact not_lt.mpr (le_trans (Nat.le_add_right _ _) h1)
  · exact not_lt.mpr
      (le_trans (Nat.le_add_right _ _) (le_trans h1 (Nat.le_add_right _ _)))

/-- Witness for C6: on the 20-core two-threads-per-core host, runner 2 with
4 cores gets cores 8-11 and their siblings 28-31; core 8 and sibling 28 are
members and 28 avoids the host-reserved range `[0, 4)`. -/
theorem get_cpu_affinity_slice_witness :
    ((8 : Nat) ∈ get_cpu_affinity Examples.htCpu 2 4) ∧
    ((28 : Nat) ∈ get_cpu_affinity Examples.htCpu 2 4) ∧
    ¬ (28 : Nat) < max 2 (Examples.htCpu.cores_physical * 20 / 100) := by
  have h := get_cpu_affinity_slice Examples.htCpu 2 4 (by decide) (by decide)
  refine ⟨(h.1 8).mpr (Or.inl ⟨by decide, by decide⟩),
    (h.1 28).mpr (Or.inr ⟨rfl, 8, by decide, by decide, by decide⟩),
    h.2 28 (by decide)⟩

/-- Counterexample for C6 as stated: on a 10-core host (2 reserved),
runner 3 with 4 cores per runner would own `[10, 14)` by the claimed
formula, but the code clamps `end_core` at `cores_physical = 10` and
returns the empty list. -/
theorem get_cpu_affinity_slice_counterexample :
    get_cpu_affinity Examples.plainCpu 3 4 = [] ∧
    get_cpu_affinity Examples.plainCpu 3 4 ≠
      pyRange (max 2 (Examples.plainCpu.cores_physical * 20 / 100) + (3 - 1) * 4)
        (max 2 (Examples.plainCpu.cores_physical * 20 / 100) + 3 * 4) := by
  refine ⟨by decide, by decide⟩

/-- C7 (amended): when `RunnerInstaller.install` returns an error after a
download or extraction failure (the supported-architecture case), the
freshly created `install_dir` has been removed when the call returns; when
the error is an unsupported configured architecture, the early `return
False` leaves the just-created directory in place. -/
theorem install_failure_cleanup (env : InstallEnv)
    (hfail : (install env).1 = false) :
    ((RUNNER_DOWNLOAD_URLS.lookup env.arch).isSome → (install env).2 = false) ∧
    ((RUNNER_DOWNLOAD_URLS.lookup env.arch) = none → (install env).2 = true) := by
  by_cases hd : env.dir_exists
  · simp [install, hd] at hfail
  · cases hlook : RUNNER_DOWNLOAD_URLS.lookup env.arch with
    | none =>
      refine ⟨fun hs => ?_, fun _ => ?_⟩
      · simp at hs
      · simp [install, hd, hlook]
    | some url =>
      refine ⟨fun _ => ?_, fun hn => ?_⟩
      · by_cases he : env.download_ok && env.extract_ok
        · simp [install, hd, hlook, he] at hfail
        · simp [install, hd, hlook, he]
      · simp at hn

/-- Witness for C7: a failed `x64` download leaves no directory behind,
while an unsupported `mips` configuration errors out with the directory
still present. -/
theorem install_failure_cleanup_witness :
    (install ⟨false, "x64", false, true⟩).2 = false ∧
    (install ⟨false, "mips", false, true⟩).2 = true :=
  ⟨(install_failure_cleanup ⟨false, "x64", false, true⟩ (by decide)).1 (by decide),
   (install_failure_cleanup ⟨false, "mips", false, true⟩ (by decide)).2 (by decide)⟩

/-- Counterexample for C7 as stated: with arch `mips` (absent from
`RUNNER_DOWNLOAD_URLS`) and no pre-existing directory, `install` returns an
error yet `install_dir` — created by the `mkdir` at installer.py line 67 —
still exists when the call returns. -/
theorem install_failure_cleanup_counterexample :
    (install ⟨false, "mips", true, true⟩).1 = false ∧
    (install ⟨false, "mips", true, true⟩).2 = true := by
  refine ⟨by decide, by decide⟩

/-- Record-update steps of the AMD name scans leave `memory_mb` unchanged. -/
theorem classify_amd_names_memory (g : GPUInfo) :
    (classify_amd_names g).memory_mb = g.memory_mb := by
  unfold classify_amd_names
  split
  · split <;> rfl
  · split
    · split <;> rfl
    · rfl

/-- The RDNA series check leaves `memory_mb` unchanged. -/
theorem classify_amd_rdna_memory (g : GPUInfo) :
    (classify_amd_rdna g).memory_mb = g.memory_mb := by
  unfold classify_amd_rdna
  split <;> rfl

/-- The Vega / VII check leaves `memory_mb` unchanged. -/
theorem classify_amd_vega_memory (g : GPUInfo) :
    (classify_amd_vega g).memory_mb = g.memory_mb := by
  unfold classify_amd_vega
  split <;> rfl

/-- The combined series checks leave `memory_mb` unchanged. -/
theorem classify_amd_series_memory (g : GPUInfo) :
    (classify_amd_series g).memory_mb = g.memory_mb := by
  unfold classify_amd_series
  rw [classify_amd_vega_memory, classify_amd_rdna_memory]

/-- C8 (amended): the minimum-memory gate lives only in the AMD branch of
`_classify_gpu_capabilities` and only fires when `memory_mb > 0`; for every
AMD GPU with known (positive) memory, `is_inference_capable` implies at
least 4 GiB (4096 MB) and `is_training_capable` implies at least 8 GiB
(8192 MB).  Other vendors get no memory gate (see the counterexample). -/
theorem classify_amd_memory_bounds (g : GPUInfo) (hv : g.vendor = "amd")
    (hm : 0 < g.memory_mb) :
    ((classify_gpu_capabilities g).is_inference_capable = true →
      4096 ≤ g.memory_mb) ∧
    ((classify_gpu_capabilities g).is_training_capable = true →
      8192 ≤ g.memory_mb) := by
  have hcg : classify_gpu_capabilities g = classify_amd g := by
    unfold classify_gpu_capabilities
    rw [hv]
    rw [if_neg (by decide), if_pos rfl]
  rw [hcg]
  unfold classify_amd amd_memory_gate
  rw [classify_amd_series_memory, classify_amd_names_memory]
  rw [if_pos hm]
  by_cases h1 : g.memory_mb < 4096
  · simp [h1]
  · by_cases h2 : g.memory_mb < 8192
    · rw [if_neg h1, if_pos h2]
      refine ⟨fun _ => by omega, fun h => ?_⟩
      simp at h
    · rw [if_neg h1, if_neg h2]
      exact ⟨fun _ => by omega, fun _ => by omega⟩

/-- Witness for C8: the 64 GiB Instinct MI250 classifies as inference- and
training-capable, and the theorem yields both memory bounds for it. -/
theorem classify_amd_memory_bounds_witness :
    (4096 ≤ Examples.mi250.memory_mb) ∧ (8192 ≤ Examples.mi250.memory_mb) :=
  ⟨(classify_amd_memory_bounds Examples.mi250 rfl (by decide)).1 (by decide),
   (classify_amd_memory_bounds Examples.mi250 rfl (by decide)).2 (by decide)⟩

/-- Counterexample for C8 as stated: an NVIDIA GPU with compute capability
8.6 but only 2 GiB of memory is classified inference- and training-capable —
the NVIDIA branch has no memory gate, so the claimed 4 GiB / 8 GiB bounds
fail for vendors other than AMD. -/
theorem classify_amd_memory_bounds_counterexample :
    (classify_gpu_capabilities Examples.mx570).is_inference_capable = true ∧
    (classify_gpu_capabilities Examples.mx570).is_training_capable = true ∧
    Examples.mx570.memory_mb < 4096 := by
  have hcg : classify_gpu_capabilities Examples.mx570 =
      classify_nvidia Examples.mx570 := rfl
  have hnv : classify_nvidia Examples.mx570 =
      { Examples.mx570 with is_training_capable := true, is_inference_capable := true } := by
    unfold classify_nvidia
    simp only [Examples.mx570]
    rw [if_pos (show NVIDIA_MIN_COMPUTE ≤ 86 / 10 by norm_num [NVIDIA_MIN_COMPUTE])]
    rw [if_neg (by decide)]
  rw [hcg, hnv]
  refine ⟨rfl, rfl, by decide⟩

/-- C9 (amended): for every pair equivalent under the relation the code
actually implements — reflexivity, `{x64 ↔ amd64}` and `{arm64 ↔ aarch64}` —
`is_emulation_needed` returns `false` and `setup_emulation` succeeds as a
no-op, for any environment.  The code does not treat `x86_64` as equivalent
to `x64`/`amd64` (see the counterexample). -/
theorem emulation_equiv_no_op (env : EmuEnv) (t h : String)
    (heq : t = h ∨ ((t = "x64" ∨ t = "amd64") ∧ (h = "x64" ∨ h = "amd64")) ∨
      ((t = "arm64" ∨ t = "aarch64") ∧ (h = "arm64" ∨ h = "aarch64"))) :
    is_emulation_needed t h = false ∧
    setup_emulation env t h = Except.ok true := by
  have hn : is_emulation_needed t h = false := by
    rcases heq with rfl | ⟨ht | ht, hh | hh⟩ | ⟨ht | ht, hh | hh⟩ <;>
      subst_vars <;> simp [is_emulation_needed]
  exact ⟨hn, by simp [setup_emulation, hn]⟩

/-- Witness for C9: `arm64` on an `aarch64` host needs no emulation and
`setup_emulation` is a successful no-op even in a bare environment. -/
theorem emulation_equiv_no_op_witness :
    is_emulation_needed "arm64" "aarch64" = false ∧
    setup_emulation Examples.bareEmuEnv "arm64" "aarch64" = Except.ok true :=
  emulation_equiv_no_op Examples.bareEmuEnv "arm64" "aarch64"
    (Or.inr (Or.inr ⟨Or.inl rfl, Or.inr rfl⟩))

/-- Counterexample for C9 as stated: the claimed equivalence includes
`x86_64`, but `is_emulation_needed("x64", "x86_64")` returns `True` (the
code compares only against the literals `x64` and `amd64`), and
`setup_emulation` on that pair is not a successful no-op — in a bare
environment it ends in the `AttributeError` path. -/
theorem emulation_equiv_no_op_counterexample :
    is_emulation_needed "x64" "x86_64" ≠ false ∧
    setup_emulation Examples.bareEmuEnv "x64" "x86_64" =
      Except.error PyErr.attributeError :=
  ⟨by decide, rfl⟩

/-- C10: the `EmulationManager` class body defines no `check_qemu_installed`
method (its intended body is stranded after the `return` of
`_determine_emulation_method`), so every `setup_emulation` call that needs
emulation for a supported target whose binfmt entry is not already enabled
reaches `self.check_qemu_installed()` and raises `AttributeError` instead of
returning an error value. -/
theorem setup_emulation_attribute_error :
    emulation_manager_method_names.contains "check_qemu_installed" = false ∧
    ∀ (env : EmuEnv) (t h : String) (info : ArchInfo),
      is_emulation_needed t h = true →
      SUPPORTED_ARCHITECTURES.lookup t = some info →
      env.binfmt_enabled (qemu_arch_str info.qemu_arch) = false →
      setup_emulation env t h = .error .attributeError := by
  refine ⟨by decide, fun env t h info hneed hlook hbin => ?_⟩
  unfold setup_emulation
  rw [if_neg (by simp [hneed]), hlook]
  simp only []
  rw [if_neg (by simp [hbin]), if_pos (by decide)]

/-- Witness for C10: deploying `arm64` on an `x64` host with no binfmt
entry enabled raises `AttributeError`. -/
theorem setup_emulation_attribute_error_witness :
    setup_emulation Examples.bareEmuEnv "arm64" "x64" =
      Except.error PyErr.attributeError :=
  setup_emulation_attribute_error.2 Examples.bareEmuEnv "arm64" "x64"
    ⟨["arm64", "aarch64"], true, some "aarch64", some "qemu-user-static"⟩
    (by decide) (by decide) rfl

end Theorems

end Embeddenator
